import Mathlib

/-
Verification of the buzz-video discovery pipeline against its two source
variants:
  * search_innertube.py — unkeyed-feed variant (class InnerTubeSearcher)
  * search_youtube.py   — keyword-search variant (class YouTubeSearcher)

Modelling conventions (shallow embedding):
  * Python dict records are modelled by the structure `Video`; a missing
    dict key is modelled by `none` in an `Option` field.
  * Timestamps are integers (a fixed sub-second unit; one day =
    86400000 units, i.e. milliseconds).  Python compares timezone-aware
    datetimes, which is a total order on instants, so an `Int` model is
    faithful for the comparisons the code performs.
  * The per-run channel cache `self.channel_cache : Dict[str, Optional[int]]`
    is modelled as a function `String → Option (Option Nat)`:
    `none` = key absent, `some none` = cached "unavailable",
    `some (some n)` = cached count n.
  * Network calls are uninterpreted oracle parameters: the embedding is a
    pure function of the oracles, and a fetch oracle returning `none`
    models an exception / unavailable answer.
-/

namespace YTS

/-- VideoRecord as built by `get_video_details` in search_innertube.py
(keys video_id, title, channel_id, channel_name, view_count,
length_seconds, publish_date) and by `search_videos` in search_youtube.py
(keys video_id, title, channel_id, channel_title — the latter is the
`channel_name` field here; its other fields are absent, i.e. `none`/0).
`subscriber_count` (and in the keyword variant `view_count`) is added by
`filter_videos`. -/
structure Video where
  video_id : String
  title : String
  channel_id : String
  channel_name : String
  view_count : Option Nat
  length_seconds : Nat
  publish_date : Option Int
  subscriber_count : Option Nat
deriving DecidableEq

/-- The `stats` dict built by `filter_videos` in search_innertube.py. -/
structure FilterStats where
  total : Nat
  recent : Nat
  small_channel : Nat
  buzz : Nat
deriving DecidableEq

/-- One day in timestamp units (milliseconds). -/
def millisPerDay : Int := 86400000

/-- Model of the per-run dict `self.channel_cache`. -/
def Cache : Type := String → Option (Option Nat)

/-- The empty cache (fresh run). -/
def emptyCache : Cache := fun _ => none

/-- Python dict assignment `cache[k] = v`. -/
def cacheInsert (c : Cache) (k : String) (v : Option Nat) : Cache :=
  fun k' => if k' = k then some v else c k'

/-- Python `cache.get(k)` (default None). -/
def cacheGetD (c : Cache) (k : String) : Option Nat :=
  (c k).getD none

/-- Python `k in cache`. -/
def containsChannel (c : Cache) (k : String) : Bool :=
  (c k).isSome

/-- Python `list(set(xs))`, modelled with first-occurrence order (the set
iteration order is unspecified; all uses below are order-insensitive). -/
def dedup (xs : List String) : List String :=
  xs.foldl (fun acc x => if x ∈ acc then acc else acc ++ [x]) []

/-- Python `{cid: cache.get(cid) for cid in channel_ids}` followed by
`.get(key)` on the resulting dict: `none` for keys outside
`channel_ids`. -/
def channelSubscribersMap (c : Cache) (channel_ids : List String) :
    String → Option Nat :=
  fun cid => if cid ∈ channel_ids then cacheGetD c cid else none

/-- The value a single lookup of `cid` resolves to: the cached entry when
present, otherwise the fetched value. -/
def resolveSubs (fetch : String → Option Nat) (cache : Cache)
    (cid : String) : Option Nat :=
  (cache cid).getD (fetch cid)

/-- Python `ids[i:i+n] for i in range(0, len(ids), n)` (accumulator form,
structurally recursive). -/
def chunkAux (n : Nat) : List String → List String → List (List String)
  | [], [] => []
  | [], cur => [cur]
  | x :: xs, cur =>
    let cur' := cur ++ [x]
    if n ≤ cur'.length then cur' :: chunkAux n xs [] else chunkAux n xs cur'

/-- Partition a list into chunks of at most `n` elements, in order. -/
def chunkList (n : Nat) (xs : List String) : List (List String) :=
  chunkAux n xs []

namespace Innertube

/-- get_channel_subscribers (search_innertube.py, lines 234-294).
`fetch cid` is the oracle for the whole per-channel try-block: the value
the block stores into `self.channel_cache[cid]` (`none` both for an
exception and for a header with no parsable subscriber text).  Returns
the updated cache and the list of ids actually fetched (`uncached_ids`);
the dict the method returns is recovered with `channelSubscribersMap`. -/
def get_channel_subscribers (fetch : String → Option Nat) (cache : Cache)
    (channel_ids : List String) : Cache × List String :=
  let uncached_ids := channel_ids.filter (fun cid => !(containsChannel cache cid))
  let newCache := uncached_ids.foldl (fun c cid => cacheInsert c cid (fetch cid)) cache
  (newCache, uncached_ids)

end Innertube

namespace Youtube

/-- get_channel_subscribers (search_youtube.py, lines 236-275).
`fetchItems batch` is the oracle for one `channels().list` call: the
`items` of the response, each as (channel id, stored value) where the
stored value is `none` for `hiddenSubscriberCount` and `some n`
otherwise.  Note the loop stores entries only for ids present in the
response items; a requested id missing from the response stays uncached.
Returns the updated cache and the list of request batches issued. -/
def get_channel_subscribers (fetchItems : List String → List (String × Option Nat))
    (cache : Cache) (channel_ids : List String) : Cache × List (List String) :=
  let uncached_ids := channel_ids.filter (fun cid => !(containsChannel cache cid))
  let batches := chunkList 50 uncached_ids
  let newCache := batches.foldl (fun c batch =>
    (fetchItems batch).foldl (fun c item => cacheInsert c item.1 item.2) c) cache
  (newCache, batches)

end Youtube

section CacheLemmas

/-- Folding inserts over keys distinct from `k` leaves `k` unchanged. -/
theorem foldl_cacheInsert_ne (fetch : String → Option Nat) (k : String) :
    ∀ (l : List String) (c : Cache), k ∉ l →
      (l.foldl (fun c cid => cacheInsert c cid (fetch cid)) c) k = c k := by
  intro l
  induction l with
  | nil => intro c _; rfl
  | cons a t ih =>
    intro c hk
    have hka : k ≠ a := by
      intro h; exact hk (h ▸ List.mem_cons_self a t)
    have hkt : k ∉ t := fun h => hk (List.mem_cons_of_mem a h)
    rw [List.foldl_cons, ih _ hkt]
    simp [cacheInsert, hka]

/-- Folding inserts over a list containing `k` stores `some (fetch k)`. -/
theorem foldl_cacheInsert_mem (fetch : String → Option Nat) (k : String) :
    ∀ (l : List String) (c : Cache), k ∈ l →
      (l.foldl (fun c cid => cacheInsert c cid (fetch cid)) c) k = some (fetch k) := by
  intro l
  induction l with
  | nil => intro c h; cases h
  | cons a t ih =>
    intro c hk
    by_cases hkt : k ∈ t
    · rw [List.foldl_cons, ih _ hkt]
    · have hka : k = a := by
        rcases List.mem_cons.mp hk with h | h
        · exact h
        · exact absurd h hkt
      rw [List.foldl_cons, foldl_cacheInsert_ne fetch k t _ hkt]
      simp [cacheInsert, hka]

/-- Folding inserts whose keys all differ from `k` (second form, for
item lists). -/
theorem foldl_itemInsert_ne (k : String) :
    ∀ (items : List (String × Option Nat)) (c : Cache),
      (∀ it ∈ items, it.1 ≠ k) →
      (items.foldl (fun c item => cacheInsert c item.1 item.2) c) k = c k := by
  intro items
  induction items with
  | nil => intro c _; rfl
  | cons a t ih =>
    intro c h
    rw [List.foldl_cons, ih _ (fun it hit => h it (List.mem_cons_of_mem a hit))]
    have hka : a.1 ≠ k := h a (List.mem_cons_self a t)
    simp only [cacheInsert]
    rw [if_neg (show ¬ k = a.1 from fun hh => hka hh.symm)]

/-- A cached key is never in `uncached_ids`. -/
theorem not_mem_filter_uncached (cache : Cache) (ids : List String) (k : String)
    (h : (cache k).isSome) :
    k ∉ ids.filter (fun cid => !(containsChannel cache cid)) := by
  intro hmem
  have := (List.mem_filter.mp hmem).2
  simp [containsChannel, h] at this

/-- Keys cached before an Innertube `get_channel_subscribers` call keep
their value. -/
theorem innertube_gcs_preserves (fetch : String → Option Nat) (cache : Cache)
    (ids : List String) (k : String) (h : (cache k).isSome) :
    (Innertube.get_channel_subscribers fetch cache ids).1 k = cache k := by
  simp only [Innertube.get_channel_subscribers]
  exact foldl_cacheInsert_ne fetch k _ cache (not_mem_filter_uncached cache ids k h)

/-- After an Innertube `get_channel_subscribers` call every requested id
is cached. -/
theorem innertube_gcs_covers (fetch : String → Option Nat) (cache : Cache)
    (ids : List String) (k : String) (h : k ∈ ids) :
    ((Innertube.get_channel_subscribers fetch cache ids).1 k).isSome := by
  simp only [Innertube.get_channel_subscribers]
  by_cases hc : (cache k).isSome
  · rw [foldl_cacheInsert_ne fetch k _ cache (not_mem_filter_uncached cache ids k hc)]
    exact hc
  · have hnone : cache k = none := Option.not_isSome_iff_eq_none.mp hc
    have hmem : k ∈ ids.filter (fun cid => !(containsChannel cache cid)) := by
      refine List.mem_filter.mpr ⟨h, ?_⟩
      simp [containsChannel, hnone]
    rw [foldl_cacheInsert_mem fetch k _ cache hmem]
    rfl

/-- An uncached requested id ends up cached with the fetched value. -/
theorem innertube_gcs_value (fetch : String → Option Nat) (cache : Cache)
    (ids : List String) (k : String) (h : k ∈ ids) (hc : cache k = none) :
    (Innertube.get_channel_subscribers fetch cache ids).1 k = some (fetch k) := by
  simp only [Innertube.get_channel_subscribers]
  have hmem : k ∈ ids.filter (fun cid => !(containsChannel cache cid)) := by
    refine List.mem_filter.mpr ⟨h, ?_⟩
    simp [containsChannel, hc]
  exact foldl_cacheInsert_mem fetch k _ cache hmem

/-- When every requested id is already cached, `get_channel_subscribers`
fetches nothing and returns the cache unchanged. -/
theorem innertube_gcs_noop (fetch : String → Option Nat) (c : Cache)
    (ids : List String) (h : ∀ i ∈ ids, (c i).isSome) :
    Innertube.get_channel_subscribers fetch c ids = (c, []) := by
  have hfil : ids.filter (fun cid => !(containsChannel c cid)) = [] := by
    rw [List.filter_eq_nil_iff]
    intro a ha
    simp [containsChannel, h a ha]
  simp only [Innertube.get_channel_subscribers, hfil]
  rfl

/-- A second Innertube call on the same ids issues no fetch and leaves
the cache unchanged. -/
theorem innertube_gcs_idem (fetch : String → Option Nat) (cache : Cache)
    (ids : List String) :
    Innertube.get_channel_subscribers fetch
        (Innertube.get_channel_subscribers fetch cache ids).1 ids =
      ((Innertube.get_channel_subscribers fetch cache ids).1, []) :=
  innertube_gcs_noop fetch _ ids (fun i hi => innertube_gcs_covers fetch cache ids i hi)

/-- The resolved dict value for a requested id equals `resolveSubs`. -/
theorem innertube_gcs_resolve (fetch : String → Option Nat) (cache : Cache)
    (ids : List String) (k : String) (h : k ∈ ids) :
    cacheGetD (Innertube.get_channel_subscribers fetch cache ids).1 k =
      resolveSubs fetch cache k := by
  by_cases hc : (cache k).isSome
  · rw [cacheGetD, innertube_gcs_preserves fetch cache ids k hc]
    rcases Option.isSome_iff_exists.mp hc with ⟨v, hv⟩
    simp [resolveSubs, hv]
  · have hnone : cache k = none := Option.not_isSome_iff_eq_none.mp hc
    rw [cacheGetD, innertube_gcs_value fetch cache ids k h hnone]
    simp [resolveSubs, hnone]

end CacheLemmas

section ChunkLemmas

/-- Every element of a chunk comes from the input list or the
accumulator. -/
theorem chunkAux_mem (n : Nat) :
    ∀ (xs cur : List String) (b : List String), b ∈ chunkAux n xs cur →
      ∀ a ∈ b, a ∈ xs ∨ a ∈ cur := by
  intro xs
  induction xs with
  | nil =>
    intro cur b hb a ha
    cases cur with
    | nil => cases hb
    | cons c cs =>
      rcases List.mem_singleton.mp hb with h
      exact Or.inr (h ▸ ha)
  | cons x xs ih =>
    intro cur b hb a ha
    unfold chunkAux at hb
    by_cases hn : n ≤ (cur ++ [x]).length
    · simp only [hn, if_pos] at hb
      rcases List.mem_cons.mp hb with h | h
      · subst h
        rcases List.mem_append.mp ha with h2 | h2
        · exact Or.inr h2
        · exact Or.inl (List.mem_cons.mpr (Or.inl (List.mem_singleton.mp h2)))
      · rcases ih [] b h a ha with h2 | h2
        · exact Or.inl (List.mem_cons_of_mem x h2)
        · cases h2
    · simp only [hn, if_neg, not_false_iff] at hb
      rcases ih (cur ++ [x]) b hb a ha with h2 | h2
      · exact Or.inl (List.mem_cons_of_mem x h2)
      · rcases List.mem_append.mp h2 with h3 | h3
        · exact Or.inr h3
        · exact Or.inl (List.mem_cons.mpr (Or.inl (List.mem_singleton.mp h3)))

/-- Every element of a chunk of `chunkList n xs` is in `xs`. -/
theorem chunkList_mem (n : Nat) (xs : List String) (b : List String)
    (hb : b ∈ chunkList n xs) : ∀ a ∈ b, a ∈ xs := by
  intro a ha
  rcases chunkAux_mem n xs [] b hb a ha with h | h
  · exact h
  · cases h

/-- Keys cached before a Youtube `get_channel_subscribers` call keep
their value, provided the response items only name requested ids. -/
theorem youtube_gcs_preserves (fetchItems : List String → List (String × Option Nat))
    (cache : Cache) (ids : List String) (k : String)
    (hresp : ∀ b, ∀ it ∈ fetchItems b, it.1 ∈ b)
    (h : (cache k).isSome) :
    (Youtube.get_channel_subscribers fetchItems cache ids).1 k = cache k := by
  simp only [Youtube.get_channel_subscribers]
  have huncached := not_mem_filter_uncached cache ids k h
  set u := ids.filter (fun cid => !(containsChannel cache cid)) with hu
  have : ∀ (bs : List (List String)) (c : Cache),
      (∀ b ∈ bs, ∀ a ∈ b, a ∈ u) →
      (bs.foldl (fun c batch =>
        (fetchItems batch).foldl (fun c item => cacheInsert c item.1 item.2) c) c) k = c k := by
    intro bs
    induction bs with
    | nil => intro c _; rfl
    | cons b bs ihb =>
      intro c hsub
      rw [List.foldl_cons, ihb _ (fun b' hb' => hsub b' (List.mem_cons_of_mem b hb'))]
      refine foldl_itemInsert_ne k (fetchItems b) c ?_
      intro it hit hk1
      have hinb : it.1 ∈ b := hresp b it hit
      have : it.1 ∈ u := hsub b (List.mem_cons_self b bs) it.1 hinb
      exact huncached (hk1 ▸ this)
  exact this (chunkList 50 u) cache (fun b hb => chunkList_mem 50 u b hb)

end ChunkLemmas

/-- The fields `get_video_details` reads from `player_data['videoDetails']`,
after the `.get(..., default)` / `int(...)` normalisation. -/
structure VideoDetailsResp where
  title : String
  channelId : String
  author : String
  viewCount : Nat
  lengthSeconds : Nat
deriving DecidableEq

/-- One `player` endpoint response: `videoDetails = none` models an empty
or missing `videoDetails` dict; `publishDate` is the microformat
`publishDate` string, `""` when absent. -/
structure PlayerResponse where
  videoDetails : Option VideoDetailsResp
  publishDate : String
deriving DecidableEq

namespace Innertube

/-- The per-id body of the loop in get_video_details
(search_innertube.py, lines 182-229).  `player id = none` models an
exception anywhere in the try-block (including a failed `int()`
conversion); `fromisoformat s = none` models the `ValueError` branch of
`datetime.fromisoformat`.  The Python code replaces a trailing Z with
+00:00 before parsing and treats an empty publish string as missing. -/
def processVideo (player : String → Option PlayerResponse)
    (fromisoformat : String → Option Int) (video_id : String) : Option Video :=
  match player video_id with
  | none => none
  | some pr =>
    match pr.videoDetails with
    | none => none
    | some d =>
      some { video_id := video_id
             title := d.title
             channel_id := d.channelId
             channel_name := d.author
             view_count := some d.viewCount
             length_seconds := d.lengthSeconds
             publish_date :=
               if pr.publishDate = "" then none
               else fromisoformat (pr.publishDate.replace "Z" "+00:00")
             subscriber_count := none }

/-- get_video_details (search_innertube.py, lines 165-232): one detail
lookup per id, skipping any id whose lookup fails or lacks
`videoDetails`, accumulating the rest in input order. -/
def get_video_details (player : String → Option PlayerResponse)
    (fromisoformat : String → Option Int) : List String → List Video
  | [] => []
  | video_id :: rest =>
    match processVideo player fromisoformat video_id with
    | none => get_video_details player fromisoformat rest
    | some v => v :: get_video_details player fromisoformat rest

/-- The loop body of filter_videos (search_innertube.py, lines 370-402):
the accumulator is (filtered, recent, small_channel, buzz); each
`continue` returns the accumulator with the increments made so far. -/
def buzz_step (channel_subscribers : String → Option Nat)
    (six_months_ago : Int) (maxSubscribers viewMultiplier : Nat)
    (acc : List Video × Nat × Nat × Nat) (video : Video) :
    List Video × Nat × Nat × Nat :=
  match channel_subscribers video.channel_id with
  | none => acc
  | some subscriber_count =>
    match video.publish_date with
    | none => acc
    | some t =>
      if t < six_months_ago then acc
      else if maxSubscribers ≤ subscriber_count then
        (acc.1, acc.2.1 + 1, acc.2.2.1, acc.2.2.2)
      else if video.view_count.getD 0 < subscriber_count * viewMultiplier then
        (acc.1, acc.2.1 + 1, acc.2.2.1 + 1, acc.2.2.2)
      else
        (acc.1 ++ [{video with subscriber_count := some subscriber_count}],
         acc.2.1 + 1, acc.2.2.1 + 1, acc.2.2.2 + 1)

/-- filter_videos (search_innertube.py, lines 335-410).  The script
hard-codes the window (180 days), the subscriber ceiling (10000) and the
view multiplier (3); the spec's contract names them as parameters
`window_days`, `max_subscribers`, `view_multiplier`, so they are
arguments here — instantiating (180, 10000, 3) recovers the script.
`now` models `datetime.now(timezone.utc)` at call time.  The Python
method returns only `filtered`; it additionally prints the `stats` dict
and mutates `self.channel_cache`, so the embedding exposes all three
observables as a triple. -/
def filter_videos (fetch : String → Option Nat) (cache : Cache)
    (videos : List Video) (now : Int)
    (windowDays maxSubscribers viewMultiplier : Nat) :
    List Video × FilterStats × Cache :=
  let six_months_ago : Int := now - (windowDays : Int) * millisPerDay
  let channel_ids := dedup (videos.filterMap
    (fun v => if v.channel_id = "" then none else some v.channel_id))
  let st := get_channel_subscribers fetch cache channel_ids
  let channel_subscribers := channelSubscribersMap st.1 channel_ids
  let acc := videos.foldl
    (buzz_step channel_subscribers six_months_ago maxSubscribers viewMultiplier)
    ([], 0, 0, 0)
  (acc.1, ⟨videos.length, acc.2.1, acc.2.2.1, acc.2.2.2⟩, st.1)

/-- The value the Python method `filter_videos` returns to its caller:
the `filtered` list alone (the stats dict is console output only). -/
def filter_videos_return (fetch : String → Option Nat) (cache : Cache)
    (videos : List Video) (now : Int)
    (windowDays maxSubscribers viewMultiplier : Nat) : List Video :=
  (filter_videos fetch cache videos now windowDays maxSubscribers viewMultiplier).1

end Innertube

namespace Youtube

/-- The loop body of filter_videos (search_youtube.py, lines 306-321):
`video_stats` is the dict returned by `get_video_statistics`
(`.get(video_id, 0)` at use); a record whose subscriber count is `None`
is skipped, otherwise it is kept when `view_count >= min_views and
subscriber_count <= max_subscribers`, enriched with both counts. -/
def yt_step (video_stats : String → Option Nat)
    (channel_subscribers : String → Option Nat)
    (min_views max_subscribers : Nat) (acc : List Video) (video : Video) :
    List Video :=
  let view_count := (video_stats video.video_id).getD 0
  match channel_subscribers video.channel_id with
  | none => acc
  | some subscriber_count =>
    if min_views ≤ view_count ∧ subscriber_count ≤ max_subscribers then
      acc ++ [{video with view_count := some view_count,
                          subscriber_count := some subscriber_count}]
    else acc

/-- filter_videos (search_youtube.py, lines 277-324).  `min_views` and
`max_subscribers` are the CLI parameters (defaults 10000 and 5000).  The
method performs no publish-timestamp check at all.  The Python method
returns `filtered`; it also mutates `self.channel_cache`, so the cache
is the second component here. -/
def filter_videos (fetchItems : List String → List (String × Option Nat))
    (cache : Cache) (video_stats : String → Option Nat)
    (videos : List Video) (min_views max_subscribers : Nat) :
    List Video × Cache :=
  let channel_ids := dedup (videos.map (fun v => v.channel_id))
  let st := get_channel_subscribers fetchItems cache channel_ids
  let channel_subscribers := channelSubscribersMap st.1 channel_ids
  (videos.foldl (yt_step video_stats channel_subscribers min_views max_subscribers) [],
   st.1)

end Youtube

namespace Innertube

/-- The header row written by export_to_csv (identical in both variants:
search_innertube.py line 427, search_youtube.py line 353). -/
def csvHeader : List String :=
  ["動画タイトル", "url", "チャンネル名", "再生回数", "登録者数"]

/-- The data row written for one video (search_innertube.py, lines
430-438; search_youtube.py writes the same five cells, reading the
channel display name from its `channel_title` key, the `channel_name`
field here). -/
def csvRow (video : Video) : List String :=
  [video.title,
   "https://www.youtube.com/watch?v=" ++ video.video_id,
   video.channel_name,
   toString (video.view_count.getD 0),
   toString (video.subscriber_count.getD 0)]

/-- export_to_csv (search_innertube.py, lines 412-440) as the sequence of
rows handed to `csv.writer`: the header first, then one row per video in
input order.  The numeric cells read keys that are always present on
filtered records; `getD 0` stands for the direct dict indexing. -/
def export_to_csv (videos : List Video) : List (List String) :=
  videos.foldl (fun rows video => rows ++ [csvRow video]) [csvHeader]

/-- Minimal quoting of Python's csv.writer (QUOTE_MINIMAL): a field is
quoted when it contains a delimiter, the quote char or a line break,
with embedded quotes doubled. -/
def csvQuote (s : String) : String :=
  if s.any (fun c => c = ',' || c = '"' || c = '\n' || c = '\r') then
    "\"" ++ s.replace "\"" "\"\"" ++ "\""
  else s

/-- One serialized csv line (csv.writer default line terminator). -/
def csvLine (cells : List String) : String :=
  String.intercalate "," (cells.map csvQuote) ++ "\r\n"

/-- The full text written to the output file: the file is opened with
encoding utf-8-sig, which prefixes the UTF-8 byte-order mark. -/
def export_file_content (videos : List Video) : String :=
  "\uFEFF" ++ String.join ((export_to_csv videos).map csvLine)

end Innertube

section FilterLemmas

/-- The per-record acceptance decision of the Innertube filter: `some`
of the enriched record when the record survives all four stages. -/
def acceptRecord (channel_subscribers : String → Option Nat)
    (six_months_ago : Int) (maxSubscribers viewMultiplier : Nat)
    (video : Video) : Option Video :=
  match channel_subscribers video.channel_id with
  | none => none
  | some s =>
    match video.publish_date with
    | none => none
    | some t =>
      if t < six_months_ago then none
      else if maxSubscribers ≤ s then none
      else if video.view_count.getD 0 < s * viewMultiplier then none
      else some {video with subscriber_count := some s}

/-- One filter step appends exactly the accepted record (if any). -/
theorem buzz_step_fst (subs : String → Option Nat) (cutoff : Int)
    (maxS mult : Nat) (acc : List Video × Nat × Nat × Nat) (v : Video) :
    (Innertube.buzz_step subs cutoff maxS mult acc v).1 =
      acc.1 ++ (acceptRecord subs cutoff maxS mult v).toList := by
  unfold Innertube.buzz_step acceptRecord
  rcases h1 : subs v.channel_id with _ | s
  · simp
  · rcases h2 : v.publish_date with _ | t
    · simp
    · by_cases hcut : t < cutoff
      · simp [hcut]
      · by_cases hmax : maxS ≤ s
        · simp [hcut, hmax]
        · by_cases hview : v.view_count.getD 0 < s * mult
          · simp [hcut, hmax, hview]
          · simp [hcut, hmax, hview]

/-- The filtered list computed by the fold is the accepted records in
input order. -/
theorem foldl_buzz_fst (subs : String → Option Nat) (cutoff : Int)
    (maxS mult : Nat) (videos : List Video) :
    ∀ acc : List Video × Nat × Nat × Nat,
      (videos.foldl (Innertube.buzz_step subs cutoff maxS mult) acc).1 =
        acc.1 ++ videos.filterMap (acceptRecord subs cutoff maxS mult) := by
  induction videos with
  | nil => intro acc; simp
  | cons v vs ih =>
    intro acc
    rw [List.foldl_cons, ih, buzz_step_fst]
    rcases h : acceptRecord subs cutoff maxS mult v with _ | r <;>
      simp [List.filterMap_cons, h]

/-- Inversion of a successful acceptance. -/
theorem acceptRecord_eq_some {subs : String → Option Nat} {cutoff : Int}
    {maxS mult : Nat} {v r : Video}
    (h : acceptRecord subs cutoff maxS mult v = some r) :
    ∃ s t, subs v.channel_id = some s ∧ v.publish_date = some t ∧
      cutoff ≤ t ∧ s < maxS ∧ s * mult ≤ v.view_count.getD 0 ∧
      r = {v with subscriber_count := some s} := by
  unfold acceptRecord at h
  rcases h1 : subs v.channel_id with _ | s <;> rw [h1] at h
  · cases h
  · rcases h2 : v.publish_date with _ | t <;> rw [h2] at h
    · cases h
    · dsimp only at h
      by_cases hcut : t < cutoff
      · rw [if_pos hcut] at h; cases h
      · rw [if_neg hcut] at h
        by_cases hmax : maxS ≤ s
        · rw [if_pos hmax] at h; cases h
        · rw [if_neg hmax] at h
          by_cases hview : v.view_count.getD 0 < s * mult
          · rw [if_pos hview] at h; cases h
          · rw [if_neg hview] at h
            refine ⟨s, t, rfl, rfl, Int.not_lt.mp hcut, Nat.lt_of_not_le hmax,
              Nat.not_lt.mp hview, ?_⟩
            cases h
            rfl

/-- Members of the Innertube filter output are accepted enrichments of
input records. -/
theorem mem_filter_videos_fst {fetch : String → Option Nat} {cache : Cache}
    {videos : List Video} {now : Int} {wd maxS mult : Nat} {r : Video}
    (h : r ∈ (Innertube.filter_videos fetch cache videos now wd maxS mult).1) :
    ∃ v ∈ videos, ∃ s t,
      v.publish_date = some t ∧ now - (wd : Int) * millisPerDay ≤ t ∧
      s < maxS ∧ s * mult ≤ v.view_count.getD 0 ∧
      r = {v with subscriber_count := some s} := by
  simp only [Innertube.filter_videos] at h
  rw [foldl_buzz_fst] at h
  simp only [List.nil_append] at h
  rcases List.mem_filterMap.mp h with ⟨v, hv, hacc⟩
  rcases acceptRecord_eq_some hacc with ⟨s, t, _, hpd, hcut, hmax, hview, hr⟩
  exact ⟨v, hv, s, t, hpd, hcut, hmax, hview, hr⟩

/-- Whether a record passes stages 1 (known subscriber count) and 2
(known, recent publish date). -/
def passesRecent (subs : String → Option Nat) (cutoff : Int)
    (v : Video) : Bool :=
  (subs v.channel_id).isSome &&
    (match v.publish_date with
     | some t => decide (cutoff ≤ t)
     | none => false)

/-- The recent counter: one filter step increments it exactly when the
record passes stages 1 and 2. -/
theorem buzz_step_recent (subs : String → Option Nat) (cutoff : Int)
    (maxS mult : Nat) (acc : List Video × Nat × Nat × Nat) (v : Video) :
    (Innertube.buzz_step subs cutoff maxS mult acc v).2.1 =
      acc.2.1 + (if passesRecent subs cutoff v then 1 else 0) := by
  unfold Innertube.buzz_step passesRecent
  rcases h1 : subs v.channel_id with _ | s
  · simp [h1]
  · rcases h2 : v.publish_date with _ | t
    · simp [h1, h2]
    · by_cases hcut : t < cutoff
      · simp [h1, h2, hcut, Int.not_le.mpr hcut]
      · by_cases hmax : maxS ≤ s
        · simp [h1, h2, hcut, hmax, Int.not_lt.mp hcut]
        · by_cases hview : v.view_count.getD 0 < s * mult
          · simp [h1, h2, hcut, hmax, hview, Int.not_lt.mp hcut]
          · simp [h1, h2, hcut, hmax, hview, Int.not_lt.mp hcut]

/-- The recent counter over the whole fold. -/
theorem foldl_buzz_recent (subs : String → Option Nat) (cutoff : Int)
    (maxS mult : Nat) (videos : List Video) :
    ∀ acc : List Video × Nat × Nat × Nat,
      (videos.foldl (Innertube.buzz_step subs cutoff maxS mult) acc).2.1 =
        acc.2.1 +
          (videos.map (fun v => if passesRecent subs cutoff v then 1 else 0)).sum := by
  induction videos with
  | nil => intro acc; simp
  | cons v vs ih =>
    intro acc
    rw [List.foldl_cons, ih, buzz_step_recent, List.map_cons, List.sum_cons,
      Nat.add_assoc]

/-- `acceptRecord` only consults the subscriber map at the record's own
channel id. -/
theorem acceptRecord_congr (subs1 subs2 : String → Option Nat)
    (cutoff : Int) (maxS mult : Nat) (v : Video)
    (h : subs1 v.channel_id = subs2 v.channel_id) :
    acceptRecord subs1 cutoff maxS mult v =
      acceptRecord subs2 cutoff maxS mult v := by
  unfold acceptRecord
  rw [h]

/-- Closed form of the Innertube filtered list. -/
theorem filter_videos_fst_eq (fetch : String → Option Nat) (cache : Cache)
    (videos : List Video) (now : Int) (wd maxS mult : Nat) :
    (Innertube.filter_videos fetch cache videos now wd maxS mult).1 =
      videos.filterMap (acceptRecord
        (channelSubscribersMap
          (Innertube.get_channel_subscribers fetch cache
            (dedup (videos.filterMap
              (fun x => if x.channel_id = "" then none else some x.channel_id)))).1
          (dedup (videos.filterMap
            (fun x => if x.channel_id = "" then none else some x.channel_id))))
        (now - (wd : Int) * millisPerDay) maxS mult) := by
  simp only [Innertube.filter_videos]
  rw [foldl_buzz_fst, List.nil_append]

/-- Closed form of the Innertube recent counter. -/
theorem filter_videos_recent_eq (fetch : String → Option Nat) (cache : Cache)
    (videos : List Video) (now : Int) (wd maxS mult : Nat) :
    (Innertube.filter_videos fetch cache videos now wd maxS mult).2.1.recent =
      (videos.map (fun v => if passesRecent (channelSubscribersMap
          (Innertube.get_channel_subscribers fetch cache
            (dedup (videos.filterMap
              (fun x => if x.channel_id = "" then none else some x.channel_id)))).1
          (dedup (videos.filterMap
            (fun x => if x.channel_id = "" then none else some x.channel_id))))
          (now - (wd : Int) * millisPerDay) v then 1 else 0)).sum := by
  simp only [Innertube.filter_videos]
  rw [foldl_buzz_recent]
  simp

/-- For a single record with a non-empty channel id, the subscriber map
lookup inside `filter_videos` resolves through cache-then-fetch. -/
theorem single_subs_lookup (fetch : String → Option Nat) (cache : Cache)
    (v : Video) (hne : v.channel_id ≠ "") :
    channelSubscribersMap
      (Innertube.get_channel_subscribers fetch cache
        (dedup ([v].filterMap
          (fun x => if x.channel_id = "" then none else some x.channel_id)))).1
      (dedup ([v].filterMap
        (fun x => if x.channel_id = "" then none else some x.channel_id)))
      v.channel_id = resolveSubs fetch cache v.channel_id := by
  have hcid : [v].filterMap
      (fun x => if x.channel_id = "" then none else some x.channel_id) =
      [v.channel_id] := by
    simp [List.filterMap, hne]
  have hd : dedup [v.channel_id] = [v.channel_id] := by simp [dedup]
  rw [hcid, hd]
  show (if v.channel_id ∈ [v.channel_id] then
      cacheGetD (Innertube.get_channel_subscribers fetch cache [v.channel_id]).1
        v.channel_id else none) = _
  rw [if_pos (List.mem_singleton_self _)]
  exact innertube_gcs_resolve fetch cache [v.channel_id] v.channel_id
    (List.mem_singleton_self _)

/-- `passesRecent` only consults the subscriber map at the record's own
channel id. -/
theorem passesRecent_congr (subs1 subs2 : String → Option Nat)
    (cutoff : Int) (v : Video)
    (h : subs1 v.channel_id = subs2 v.channel_id) :
    passesRecent subs1 cutoff v = passesRecent subs2 cutoff v := by
  unfold passesRecent
  rw [h]

/-- Single-record closed form of the Innertube filtered list. -/
theorem filter_videos_single_out (fetch : String → Option Nat) (cache : Cache)
    (v : Video) (now : Int) (wd maxS mult : Nat) (hne : v.channel_id ≠ "") :
    (Innertube.filter_videos fetch cache [v] now wd maxS mult).1 =
      (acceptRecord (resolveSubs fetch cache)
        (now - (wd : Int) * millisPerDay) maxS mult v).toList := by
  rw [filter_videos_fst_eq]
  have hc := acceptRecord_congr
    (channelSubscribersMap
      (Innertube.get_channel_subscribers fetch cache
        (dedup ([v].filterMap
          (fun x => if x.channel_id = "" then none else some x.channel_id)))).1
      (dedup ([v].filterMap
        (fun x => if x.channel_id = "" then none else some x.channel_id))))
    (resolveSubs fetch cache)
    (now - (wd : Int) * millisPerDay) maxS mult v
    (single_subs_lookup fetch cache v hne)
  rw [List.filterMap_cons, List.filterMap_nil, hc]
  rcases h : acceptRecord (resolveSubs fetch cache)
    (now - (wd : Int) * millisPerDay) maxS mult v with _ | r <;> rfl

/-- Single-record closed form of the Innertube recent counter. -/
theorem filter_videos_single_recent (fetch : String → Option Nat)
    (cache : Cache) (v : Video) (now : Int) (wd maxS mult : Nat)
    (hne : v.channel_id ≠ "") :
    (Innertube.filter_videos fetch cache [v] now wd maxS mult).2.1.recent =
      (if passesRecent (resolveSubs fetch cache)
        (now - (wd : Int) * millisPerDay) v then 1 else 0) := by
  rw [filter_videos_recent_eq]
  have hc := passesRecent_congr
    (channelSubscribersMap
      (Innertube.get_channel_subscribers fetch cache
        (dedup ([v].filterMap
          (fun x => if x.channel_id = "" then none else some x.channel_id)))).1
      (dedup ([v].filterMap
        (fun x => if x.channel_id = "" then none else some x.channel_id))))
    (resolveSubs fetch cache)
    (now - (wd : Int) * millisPerDay) v
    (single_subs_lookup fetch cache v hne)
  simp only [List.map_cons, List.map_nil, List.sum_cons, List.sum_nil, hc]
  omega

/-- A record with an unknown or too-early publish date never passes the
recency stage, whatever the subscriber lookup yields. -/
theorem passesRecent_bad (subs : String → Option Nat) (cutoff : Int)
    (v : Video)
    (hbad : v.publish_date = none ∨
      ∃ t, v.publish_date = some t ∧ t < cutoff) :
    passesRecent subs cutoff v = false := by
  unfold passesRecent
  rcases hbad with h | ⟨t, hpd, hlt⟩
  · rw [h]
    simp
  · rw [hpd]
    simp [Int.not_le.mpr hlt]

/-- With a bad publish date the single-record recent counter is 0. -/
theorem filter_videos_single_recent_bad (fetch : String → Option Nat)
    (cache : Cache) (v : Video) (now : Int) (wd maxS mult : Nat)
    (hbad : v.publish_date = none ∨
      ∃ t, v.publish_date = some t ∧ t < now - (wd : Int) * millisPerDay) :
    (Innertube.filter_videos fetch cache [v] now wd maxS mult).2.1.recent = 0 := by
  rw [filter_videos_recent_eq]
  simp only [List.map_cons, List.map_nil, List.sum_cons, List.sum_nil]
  rw [passesRecent_bad _ _ _ hbad]
  simp

end FilterLemmas

section YtFilterLemmas

/-- The per-record acceptance decision of the keyword-variant filter. -/
def ytAcceptRecord (video_stats channel_subscribers : String → Option Nat)
    (min_views max_subscribers : Nat) (video : Video) : Option Video :=
  match channel_subscribers video.channel_id with
  | none => none
  | some s =>
    if min_views ≤ (video_stats video.video_id).getD 0 ∧ s ≤ max_subscribers then
      some {video with view_count := some ((video_stats video.video_id).getD 0),
                       subscriber_count := some s}
    else none

/-- One keyword-variant step appends exactly the accepted record. -/
theorem yt_step_eq (st subs : String → Option Nat) (minV maxS : Nat)
    (acc : List Video) (v : Video) :
    Youtube.yt_step st subs minV maxS acc v =
      acc ++ (ytAcceptRecord st subs minV maxS v).toList := by
  unfold Youtube.yt_step ytAcceptRecord
  rcases h1 : subs v.channel_id with _ | s
  · simp
  · by_cases hc : minV ≤ (st v.video_id).getD 0 ∧ s ≤ maxS
    · simp [hc]
    · simp [hc]

/-- The keyword-variant filtered list is the accepted records in input
order. -/
theorem foldl_yt_step (st subs : String → Option Nat) (minV maxS : Nat)
    (videos : List Video) :
    ∀ acc : List Video,
      videos.foldl (Youtube.yt_step st subs minV maxS) acc =
        acc ++ videos.filterMap (ytAcceptRecord st subs minV maxS) := by
  induction videos with
  | nil => intro acc; simp
  | cons v vs ih =>
    intro acc
    rw [List.foldl_cons, ih, yt_step_eq]
    rcases h : ytAcceptRecord st subs minV maxS v with _ | r <;>
      simp [List.filterMap_cons, h]

/-- Inversion of a keyword-variant acceptance. -/
theorem ytAcceptRecord_eq_some {st subs : String → Option Nat}
    {minV maxS : Nat} {v r : Video}
    (h : ytAcceptRecord st subs minV maxS v = some r) :
    ∃ s, subs v.channel_id = some s ∧ s ≤ maxS ∧
      minV ≤ (st v.video_id).getD 0 ∧
      r = {v with view_count := some ((st v.video_id).getD 0),
                  subscriber_count := some s} := by
  unfold ytAcceptRecord at h
  rcases h1 : subs v.channel_id with _ | s <;> rw [h1] at h
  · cases h
  · dsimp only at h
    by_cases hc : minV ≤ (st v.video_id).getD 0 ∧ s ≤ maxS
    · rw [if_pos hc] at h
      cases h
      exact ⟨s, rfl, hc.2, hc.1, rfl⟩
    · rw [if_neg hc] at h
      cases h

/-- Closed form of the keyword-variant filtered list. -/
theorem yt_filter_videos_fst_eq
    (fetchItems : List String → List (String × Option Nat)) (cache : Cache)
    (st : String → Option Nat) (videos : List Video) (minV maxS : Nat) :
    (Youtube.filter_videos fetchItems cache st videos minV maxS).1 =
      videos.filterMap (ytAcceptRecord st
        (channelSubscribersMap
          (Youtube.get_channel_subscribers fetchItems cache
            (dedup (videos.map (fun v => v.channel_id)))).1
          (dedup (videos.map (fun v => v.channel_id))))
        minV maxS) := by
  simp only [Youtube.filter_videos]
  rw [foldl_yt_step, List.nil_append]

/-- Members of the keyword-variant filter output are accepted
enrichments of input records. -/
theorem mem_yt_filter_videos_fst
    {fetchItems : List String → List (String × Option Nat)} {cache : Cache}
    {st : String → Option Nat} {videos : List Video} {minV maxS : Nat}
    {r : Video}
    (h : r ∈ (Youtube.filter_videos fetchItems cache st videos minV maxS).1) :
    ∃ v ∈ videos, ∃ s, s ≤ maxS ∧ minV ≤ (st v.video_id).getD 0 ∧
      r = {v with view_count := some ((st v.video_id).getD 0),
                  subscriber_count := some s} := by
  rw [yt_filter_videos_fst_eq] at h
  rcases List.mem_filterMap.mp h with ⟨v, hv, hacc⟩
  rcases ytAcceptRecord_eq_some hacc with ⟨s, _, hmax, hmin, hr⟩
  exact ⟨v, hv, s, hmax, hmin, hr⟩

end YtFilterLemmas

section ExportLemmas

/-- The exporter writes the header and then one row per record, in input
order. -/
theorem export_to_csv_eq (videos : List Video) :
    Innertube.export_to_csv videos =
      Innertube.csvHeader :: videos.map Innertube.csvRow := by
  have : ∀ rows : List (List String),
      videos.foldl (fun rows video => rows ++ [Innertube.csvRow video]) rows =
        rows ++ videos.map Innertube.csvRow := by
    induction videos with
    | nil => intro rows; simp
    | cons v vs ih =>
      intro rows
      rw [List.foldl_cons, ih, List.map_cons]
      simp
  show videos.foldl (fun rows video => rows ++ [Innertube.csvRow video])
    [Innertube.csvHeader] = _
  rw [this]
  rfl

end ExportLemmas

section Fixtures

/-- Fixture: a keyword-variant channel fetch answering every requested
id with 5000 subscribers. -/
def ytFetch5000 : List String → List (String × Option Nat) :=
  fun b => b.map (fun cid => (cid, some 5000))

/-- Fixture: a video-statistics dict giving every id 10000 views. -/
def ytStats10000 : String → Option Nat := fun _ => some 10000

/-- Fixture: a keyword-variant search record (no view count, no publish
date — the search snippet carries neither). -/
def ytVideo1 : Video :=
  ⟨"vid00000001", "title one", "UCchan00001", "Chan One", none, 0, none, none⟩

/-- Fixture: an unkeyed-variant fetch answering 10000 subscribers. -/
def itFetch10000 : String → Option Nat := fun _ => some 10000

/-- Fixture: an unkeyed-variant record on the subscriber-ceiling
boundary run. -/
def itVideoA : Video :=
  ⟨"vidA0000001", "title A", "UCchanA0001", "Chan A", some 999999, 10, some 0, none⟩

/-- Fixture: an unkeyed-variant fetch answering 100 subscribers. -/
def itFetch100 : String → Option Nat := fun _ => some 100

/-- Fixture: an unkeyed-variant record accepted by the filter
(1000 views, 100 subscribers, published exactly at `now`). -/
def itVideoB : Video :=
  ⟨"vidB0000001", "title B", "UCchanB0001", "Chan B", some 1000, 10, some 5, none⟩

/-- Fixture: a keyword-variant channel fetch whose responses contain no
items at all (as for deleted or invalid channel ids). -/
def ytEmptyItems : List String → List (String × Option Nat) := fun _ => []

/-- Fixture: the `now` of the end-to-end scenario, 200 days after the
timestamp origin. -/
def nowC7 : Int := 200 * millisPerDay

/-- Fixture: scenario channel A — 3000 views, published one day ago. -/
def videoC7A : Video :=
  ⟨"vidA0000007", "Video A", "UCchA000007", "Channel A", some 3000, 60,
   some (nowC7 - millisPerDay), none⟩

/-- Fixture: scenario channel B — 100 views, published one day ago. -/
def videoC7B : Video :=
  ⟨"vidB0000007", "Video B", "UCchB000007", "Channel B", some 100, 60,
   some (nowC7 - millisPerDay), none⟩

/-- Fixture: scenario fetch — both channels have 1000 subscribers. -/
def fetchC7 : String → Option Nat := fun _ => some 1000

/-- Fixture: a record whose channel resolves to no subscriber count. -/
def videoC7X : Video :=
  ⟨"vidX0000007", "Video X", "UCchX000007", "Channel X", some 5, 0, some 0, none⟩

/-- Fixture: a fetch for which every channel is unavailable. -/
def fetchNone : String → Option Nat := fun _ => none

/-- Fixture: a player oracle failing on one specific id and returning a
fixed detail response for every other id. -/
def playerFix : String → Option PlayerResponse := fun id =>
  if id = "badid000000" then none
  else some ⟨some ⟨"T", "UCfix000001", "Author", 7, 100⟩,
             "2025-05-12T00:00:00Z"⟩

/-- Fixture: a timestamp parser that always fails. -/
def isoNone : String → Option Int := fun _ => none

end Fixtures

section DetailLemmas

/-- One failing lookup (exception or missing `videoDetails`) makes
`processVideo` skip the id. -/
theorem processVideo_none {player : String → Option PlayerResponse}
    {iso : String → Option Int} {b : String}
    (h : player b = none ∨ ∃ pr, player b = some pr ∧ pr.videoDetails = none) :
    Innertube.processVideo player iso b = none := by
  unfold Innertube.processVideo
  rcases h with h | ⟨pr, hpr, hvd⟩
  · rw [h]
  · rw [hpr]
    dsimp only
    rw [hvd]

/-- The detail fetch distributes over list append: each id is processed
independently. -/
theorem get_video_details_append (player : String → Option PlayerResponse)
    (iso : String → Option Int) :
    ∀ xs ys : List String,
      Innertube.get_video_details player iso (xs ++ ys) =
        Innertube.get_video_details player iso xs ++
          Innertube.get_video_details player iso ys := by
  intro xs
  induction xs with
  | nil => intro ys; rfl
  | cons a t ih =>
    intro ys
    rw [List.cons_append]
    rcases h : Innertube.processVideo player iso a with _ | v
    · simp [Innertube.get_video_details, h, ih]
    · simp [Innertube.get_video_details, h, ih]

end DetailLemmas

section Claims

/-- C1: the Buzz Filter subscriber ceiling.  As amended: the unkeyed-feed
variant is strict — every exported record satisfies
`subscriber_count < max_subscribers` and a resolved count equal to the
ceiling is rejected — but the keyword-search variant tests
`subscriber_count <= max_subscribers`, so a record whose count equals
the ceiling is accepted there (shown concretely with the ceiling 5000). -/
theorem claim_C1_subscriber_ceiling :
    (∀ (fetch : String → Option Nat) (cache : Cache) (videos : List Video)
        (now : Int) (wd maxS mult : Nat) (r : Video),
      r ∈ (Innertube.filter_videos fetch cache videos now wd maxS mult).1 →
      ∃ s, r.subscriber_count = some s ∧ s < maxS) ∧
    (∀ (fetch : String → Option Nat) (cache : Cache) (v : Video)
        (now : Int) (wd maxS mult s : Nat),
      v.channel_id ≠ "" → resolveSubs fetch cache v.channel_id = some s →
      maxS ≤ s →
      (Innertube.filter_videos fetch cache [v] now wd maxS mult).1 = []) ∧
    (∀ (fetchItems : List String → List (String × Option Nat)) (cache : Cache)
        (st : String → Option Nat) (videos : List Video) (minV maxS : Nat)
        (r : Video),
      r ∈ (Youtube.filter_videos fetchItems cache st videos minV maxS).1 →
      ∃ s, r.subscriber_count = some s ∧ s ≤ maxS) ∧
    (Youtube.filter_videos ytFetch5000 emptyCache ytStats10000 [ytVideo1]
        0 5000).1 =
      [{ytVideo1 with view_count := some 10000,
                      subscriber_count := some 5000}] := by
  refine ⟨?_, ?_, ?_, by decide⟩
  · intro fetch cache videos now wd maxS mult r hr
    rcases mem_filter_videos_fst hr with ⟨v, hv, s, t, hpd, hcut, hmax, hview, hr'⟩
    exact ⟨s, by rw [hr'], hmax⟩
  · intro fetch cache v now wd maxS mult s hne hs hmax
    rw [filter_videos_single_out fetch cache v now wd maxS mult hne]
    unfold acceptRecord
    rw [hs]
    rcases hpd : v.publish_date with _ | t
    · rfl
    · dsimp only
      by_cases hcut : t < now - (wd : Int) * millisPerDay
      · rw [if_pos hcut]; rfl
      · rw [if_neg hcut, if_pos hmax]; rfl
  · intro fetchItems cache st videos minV maxS r hr
    rcases mem_yt_filter_videos_fst hr with ⟨v, hv, s, hmax, hmin, hr'⟩
    exact ⟨s, by rw [hr'], hmax⟩

/-- C1 counterexample: the claim says a record with subscriber count
exactly equal to `max_subscribers` is rejected in the keyword-search
variant too; with the ceiling 5000 and a channel resolving to exactly
5000 subscribers the keyword-variant filter accepts the record. -/
theorem claim_C1_counterexample :
    (Youtube.filter_videos ytFetch5000 emptyCache ytStats10000 [ytVideo1]
        0 5000).1 ≠ [] ∧
    ∀ r ∈ (Youtube.filter_videos ytFetch5000 emptyCache ytStats10000 [ytVideo1]
        0 5000).1, r.subscriber_count = some 5000 := by
  decide

/-- C1 witness: the unkeyed-feed variant rejects a record resolving to
exactly 10000 subscribers when the ceiling is 10000. -/
theorem claim_C1_witness :
    (Innertube.filter_videos itFetch10000 emptyCache [itVideoA]
        0 0 10000 3).1 = [] :=
  claim_C1_subscriber_ceiling.2.1 itFetch10000 emptyCache itVideoA
    0 0 10000 3 10000 (by decide) (by decide) (by decide)

/-- C2: the Buzz Filter recency boundary in the unkeyed-feed variant.
A record whose publish timestamp is unknown or strictly earlier than
`now - window_days` is rejected (and not counted as recent); a record
published exactly at the cutoff passes the recency stage; a record one
timestamp unit (millisecond) before the cutoff is rejected. -/
theorem claim_C2_recency_boundary :
    (∀ (fetch : String → Option Nat) (cache : Cache) (v : Video)
        (now : Int) (wd maxS mult : Nat),
      (v.publish_date = none ∨
        ∃ t, v.publish_date = some t ∧ t < now - (wd : Int) * millisPerDay) →
      (Innertube.filter_videos fetch cache [v] now wd maxS mult).1 = [] ∧
      (Innertube.filter_videos fetch cache [v] now wd maxS mult).2.1.recent = 0) ∧
    (∀ (fetch : String → Option Nat) (cache : Cache) (v : Video)
        (now : Int) (wd maxS mult s : Nat),
      v.channel_id ≠ "" → resolveSubs fetch cache v.channel_id = some s →
      v.publish_date = some (now - (wd : Int) * millisPerDay) →
      (Innertube.filter_videos fetch cache [v] now wd maxS mult).2.1.recent = 1) ∧
    (∀ (fetch : String → Option Nat) (cache : Cache) (v : Video)
        (now : Int) (wd maxS mult : Nat),
      v.publish_date = some (now - (wd : Int) * millisPerDay - 1) →
      (Innertube.filter_videos fetch cache [v] now wd maxS mult).1 = [] ∧
      (Innertube.filter_videos fetch cache [v] now wd maxS mult).2.1.recent = 0) := by
  have hbadcase : ∀ (fetch : String → Option Nat) (cache : Cache) (v : Video)
      (now : Int) (wd maxS mult : Nat),
      (v.publish_date = none ∨
        ∃ t, v.publish_date = some t ∧ t < now - (wd : Int) * millisPerDay) →
      (Innertube.filter_videos fetch cache [v] now wd maxS mult).1 = [] ∧
      (Innertube.filter_videos fetch cache [v] now wd maxS mult).2.1.recent = 0 := by
    intro fetch cache v now wd maxS mult hbad
    constructor
    · rw [List.eq_nil_iff_forall_not_mem]
      intro r hr
      rcases mem_filter_videos_fst hr with ⟨v', hv', s, t, hpd, hcut, -, -, -⟩
      rw [List.mem_singleton] at hv'
      subst hv'
      rcases hbad with h | ⟨t2, hpd2, hlt2⟩
      · rw [h] at hpd; cases hpd
      · rw [hpd2] at hpd
        cases hpd
        exact absurd hcut (not_le.mpr hlt2)
    · exact filter_videos_single_recent_bad fetch cache v now wd maxS mult hbad
  refine ⟨hbadcase, ?_, ?_⟩
  · intro fetch cache v now wd maxS mult s hne hs hpd
    rw [filter_videos_single_recent fetch cache v now wd maxS mult hne]
    simp [passesRecent, hs, hpd]
  · intro fetch cache v now wd maxS mult hpd
    exact hbadcase fetch cache v now wd maxS mult
      (Or.inr ⟨now - (wd : Int) * millisPerDay - 1, hpd, by omega⟩)

/-- C2 witness: with window 180 days and `now` set 180 days after epoch,
a record published exactly at the cutoff (timestamp 0) is counted as
recent. -/
theorem claim_C2_witness :
    (Innertube.filter_videos itFetch100 emptyCache
        [{itVideoB with publish_date := some 0}]
        ((180 : Int) * millisPerDay) 180 10000 3).2.1.recent = 1 :=
  claim_C2_recency_boundary.2.1 itFetch100 emptyCache
    {itVideoB with publish_date := some 0}
    ((180 : Int) * millisPerDay) 180 10000 3 100
    (by decide) (by decide) (by decide)

/-- C3: the view-ratio stage of the unkeyed-feed variant.  A record that
reached stage 4 (known subscriber count `s`, recent publish date,
`s < max_subscribers`) is kept exactly when
`view_count >= s * view_multiplier` — equality passes — and with
`s = 0` any record (in particular any with positive views) is kept. -/
theorem claim_C3_view_ratio :
    ∀ (fetch : String → Option Nat) (cache : Cache) (v : Video)
      (now : Int) (wd maxS mult s : Nat) (t : Int),
      v.channel_id ≠ "" → resolveSubs fetch cache v.channel_id = some s →
      v.publish_date = some t → ¬ t < now - (wd : Int) * millisPerDay →
      s < maxS →
      (((Innertube.filter_videos fetch cache [v] now wd maxS mult).1 =
          [{v with subscriber_count := some s}]) ↔
        s * mult ≤ v.view_count.getD 0) ∧
      (s = 0 → 0 < v.view_count.getD 0 →
        (Innertube.filter_videos fetch cache [v] now wd maxS mult).1 =
          [{v with subscriber_count := some s}]) := by
  intro fetch cache v now wd maxS mult s t hne hs hpd hcut hmax
  rw [filter_videos_single_out fetch cache v now wd maxS mult hne]
  unfold acceptRecord
  rw [hs, hpd]
  dsimp only
  rw [if_neg hcut, if_neg (not_le.mpr hmax)]
  constructor
  · by_cases hview : v.view_count.getD 0 < s * mult
    · rw [if_pos hview]
      simp [not_le.mpr hview]
    · rw [if_neg hview]
      simp [Nat.not_lt.mp hview]
  · intro hs0 hpos
    subst hs0
    rw [if_neg (by simp)]
    rfl

/-- C3 witness: 1000 views with 100 subscribers and multiplier 3 (so the
threshold 300 is met) yields exactly the enriched record. -/
theorem claim_C3_witness :
    (Innertube.filter_videos itFetch100 emptyCache [itVideoB]
        5 0 10000 3).1 = [{itVideoB with subscriber_count := some 100}] :=
  ((claim_C3_view_ratio itFetch100 emptyCache itVideoB 5 0 10000 3 100 5
    (by decide) (by decide) (by decide) (by decide) (by decide)).1).mpr
    (by decide)

/-- C4: the export-set invariant.  As amended: in both variants every
record the filter hands to the exporter carries a known subscriber
count; in the unkeyed-feed variant it additionally carries a known
publish timestamp no earlier than `now - window_days`; the
keyword-search variant performs no publish-timestamp check at all. -/
theorem claim_C4_export_invariant :
    (∀ (fetch : String → Option Nat) (cache : Cache) (videos : List Video)
        (now : Int) (wd maxS mult : Nat) (r : Video),
      r ∈ (Innertube.filter_videos fetch cache videos now wd maxS mult).1 →
      (∃ s, r.subscriber_count = some s) ∧
      (∃ t, r.publish_date = some t ∧ now - (wd : Int) * millisPerDay ≤ t)) ∧
    (∀ (fetchItems : List String → List (String × Option Nat)) (cache : Cache)
        (st : String → Option Nat) (videos : List Video) (minV maxS : Nat)
        (r : Video),
      r ∈ (Youtube.filter_videos fetchItems cache st videos minV maxS).1 →
      ∃ s, r.subscriber_count = some s) := by
  constructor
  · intro fetch cache videos now wd maxS mult r hr
    rcases mem_filter_videos_fst hr with ⟨v, hv, s, t, hpd, hcut, -, -, hr'⟩
    refine ⟨⟨s, by rw [hr']⟩, ⟨t, ?_, hcut⟩⟩
    rw [hr']
    exact hpd
  · intro fetchItems cache st videos minV maxS r hr
    rcases mem_yt_filter_videos_fst hr with ⟨v, hv, s, -, -, hr'⟩
    exact ⟨s, by rw [hr']⟩

/-- C4 counterexample: the claim requires a known in-window publish
timestamp for every exported record in either variant, but the
keyword-search filter exports a record that carries no publish
timestamp at all. -/
theorem claim_C4_counterexample :
    ∃ r ∈ (Youtube.filter_videos ytFetch5000 emptyCache ytStats10000
      [ytVideo1] 0 5000).1, r.publish_date = none := by
  decide

/-- C4 witness: the record exported by a concrete unkeyed-feed run has a
known subscriber count and an in-window timestamp. -/
theorem claim_C4_witness :
    (∃ s, ({itVideoB with subscriber_count := some 100} : Video).subscriber_count
      = some s) ∧
    (∃ t, ({itVideoB with subscriber_count := some 100} : Video).publish_date
      = some t ∧ (5 : Int) - ((0 : Nat) : Int) * millisPerDay ≤ t) :=
  claim_C4_export_invariant.1 itFetch100 emptyCache [itVideoB] 5 0 10000 3
    {itVideoB with subscriber_count := some 100} (by decide)

/-- C6: the metadata cache.  As amended: in the unkeyed-feed variant the
claim holds in full — a batch lookup fetches exactly the uncached
requested ids, leaves cached entries untouched, caches every outcome
(including unavailable), and a second identical call issues no fetch and
returns the identical state.  In the keyword-search variant the batch
requests cover only uncached ids and (for responses confined to
requested ids) cached entries are untouched, but an id omitted from the
response items is NOT cached, so a later lookup fetches it again. -/
theorem claim_C6_cache_idempotence :
    (∀ (fetch : String → Option Nat) (cache : Cache) (ids : List String),
      (∀ i ∈ (Innertube.get_channel_subscribers fetch cache ids).2,
        i ∈ ids ∧ cache i = none) ∧
      (∀ k, (cache k).isSome →
        (Innertube.get_channel_subscribers fetch cache ids).1 k = cache k) ∧
      (∀ i ∈ ids,
        cacheGetD (Innertube.get_channel_subscribers fetch cache ids).1 i =
          resolveSubs fetch cache i) ∧
      Innertube.get_channel_subscribers fetch
        (Innertube.get_channel_subscribers fetch cache ids).1 ids =
        ((Innertube.get_channel_subscribers fetch cache ids).1, [])) ∧
    (∀ (fetch : String → Option Nat) (id : String), fetch id = none →
      (Innertube.get_channel_subscribers fetch emptyCache [id]).1 id =
        some none) ∧
    (∀ (fetchItems : List String → List (String × Option Nat)) (cache : Cache)
        (ids : List String),
      (∀ b ∈ (Youtube.get_channel_subscribers fetchItems cache ids).2,
        ∀ i ∈ b, i ∈ ids ∧ cache i = none) ∧
      ((∀ b, ∀ it ∈ fetchItems b, it.1 ∈ b) → ∀ k, (cache k).isSome →
        (Youtube.get_channel_subscribers fetchItems cache ids).1 k =
          cache k)) := by
  refine ⟨?_, ?_, ?_⟩
  · intro fetch cache ids
    refine ⟨?_, innertube_gcs_preserves fetch cache ids,
      innertube_gcs_resolve fetch cache ids, innertube_gcs_idem fetch cache ids⟩
    intro i hi
    simp only [Innertube.get_channel_subscribers, List.mem_filter] at hi
    refine ⟨hi.1, ?_⟩
    have h2 := hi.2
    cases hcc : cache i with
    | none => rfl
    | some v =>
      rw [containsChannel, hcc] at h2
      simp at h2
  · intro fetch id h
    rw [innertube_gcs_value fetch emptyCache [id] id
      (List.mem_singleton_self _) rfl, h]
  · intro fetchItems cache ids
    constructor
    · intro b hb i hib
      simp only [Youtube.get_channel_subscribers] at hb
      have hmem := chunkList_mem 50 _ b hb i hib
      rw [List.mem_filter] at hmem
      refine ⟨hmem.1, ?_⟩
      have h2 := hmem.2
      cases hcc : cache i with
      | none => rfl
      | some v =>
        rw [containsChannel, hcc] at h2
        simp at h2
    · intro hresp k hk
      exact youtube_gcs_preserves fetchItems cache ids k hresp hk

/-- C6 witness: a failed fetch is cached as unavailable. -/
theorem claim_C6_witness :
    (Innertube.get_channel_subscribers fetchNone emptyCache
      ["UCwitness01"]).1 "UCwitness01" = some none :=
  claim_C6_cache_idempotence.2.1 fetchNone "UCwitness01" rfl

/-- C6 counterexample: the claim says looking up the same channel id
twice in one run issues exactly one underlying fetch, in both variants;
in the keyword-search variant a request whose response omits the id
leaves it uncached, and a second lookup issues a second request for it. -/
theorem claim_C6_counterexample :
    (Youtube.get_channel_subscribers ytEmptyItems emptyCache ["UCy"]).2 =
      [["UCy"]] ∧
    (Youtube.get_channel_subscribers ytEmptyItems
        (Youtube.get_channel_subscribers ytEmptyItems emptyCache ["UCy"]).1
        ["UCy"]).2 = [["UCy"]] := by
  decide

/-- C7: the end-to-end filter scenario.  As amended: the filter computes
the stage counters {total, recent, small_channel, buzz} and prints them;
the value returned to the caller is only the qualifying list.  On the
spec's scenario (A: 3000 views / 1000 subs / 1 day old; B: 100 views /
1000 subs / 1 day old; ceiling 5000, multiplier 3) the qualifying output
is exactly channel A's enriched record and the computed counters are
{total 2, recent 2, small_channel 2, buzz 1}. -/
theorem claim_C7_filter_scenario :
    (Innertube.filter_videos fetchC7 emptyCache [videoC7A, videoC7B]
        nowC7 180 5000 3).1 =
      [{videoC7A with subscriber_count := some 1000}] ∧
    (Innertube.filter_videos fetchC7 emptyCache [videoC7A, videoC7B]
        nowC7 180 5000 3).2.1 = ⟨2, 2, 2, 1⟩ ∧
    Innertube.filter_videos_return fetchC7 emptyCache [videoC7A, videoC7B]
        nowC7 180 5000 3 =
      (Innertube.filter_videos fetchC7 emptyCache [videoC7A, videoC7B]
        nowC7 180 5000 3).1 :=
  ⟨by decide, by decide, rfl⟩

/-- C7 counterexample: the claim says the filter returns the counters to
its caller; the value actually returned is the list alone — two inputs
with identical returned values have different stage counters, so no
caller can recover the counters from what the function returns. -/
theorem claim_C7_counterexample :
    Innertube.filter_videos_return fetchNone emptyCache [] 0 180 10000 3 =
      Innertube.filter_videos_return fetchNone emptyCache [videoC7X]
        0 180 10000 3 ∧
    (Innertube.filter_videos fetchNone emptyCache [] 0 180 10000 3).2.1 ≠
      (Innertube.filter_videos fetchNone emptyCache [videoC7X]
        0 180 10000 3).2.1 := by
  decide

/-- C8: the result exporter.  As amended: the written file is a UTF-8
BOM-prefixed comma-separated table whose header row is
['動画タイトル', 'url', 'チャンネル名', '再生回数', '登録者数'] (the five
claimed columns in the claimed order, with Japanese labels), followed by
exactly one row per record in filter order, each row holding the title,
the fixed base URL concatenated with the video id, the channel display
name, the view count and the subscriber count. -/
theorem claim_C8_exporter :
    (∀ videos : List Video,
      Innertube.export_to_csv videos =
        Innertube.csvHeader :: videos.map Innertube.csvRow) ∧
    Innertube.csvHeader =
      ["動画タイトル", "url", "チャンネル名", "再生回数", "登録者数"] ∧
    (∀ v : Video, Innertube.csvRow v =
      [v.title, "https://www.youtube.com/watch?v=" ++ v.video_id,
       v.channel_name, toString (v.view_count.getD 0),
       toString (v.subscriber_count.getD 0)]) ∧
    (∀ videos : List Video,
      Innertube.export_file_content videos =
        "\uFEFF" ++ String.join
          ((Innertube.csvHeader :: videos.map Innertube.csvRow).map
            Innertube.csvLine)) := by
  refine ⟨export_to_csv_eq, rfl, fun v => rfl, fun videos => ?_⟩
  unfold Innertube.export_file_content
  rw [export_to_csv_eq]

/-- C8 counterexample: the claim fixes the header row to the English
labels; the code writes Japanese labels (except `url`). -/
theorem claim_C8_counterexample :
    (Innertube.export_to_csv []).head? ≠
      some ["title", "url", "channel_name", "view_count",
            "subscriber_count"] := by
  decide

/-- C9: detail-fetcher partial-failure tolerance.  A lookup error or a
missing `videoDetails` for one id drops exactly that id — the records
for the surrounding ids are unaffected — and a publish string that fails
timestamp parsing only degrades that record's `publish_date` to `none`
while the record itself is kept. -/
theorem claim_C9_partial_failure :
    (∀ (player : String → Option PlayerResponse) (iso : String → Option Int)
        (xs ys : List String) (b : String),
      (player b = none ∨ ∃ pr, player b = some pr ∧ pr.videoDetails = none) →
      Innertube.get_video_details player iso (xs ++ b :: ys) =
        Innertube.get_video_details player iso xs ++
          Innertube.get_video_details player iso ys) ∧
    (∀ (player : String → Option PlayerResponse) (iso : String → Option Int)
        (id : String) (pr : PlayerResponse) (d : VideoDetailsResp),
      player id = some pr → pr.videoDetails = some d → pr.publishDate ≠ "" →
      iso (pr.publishDate.replace "Z" "+00:00") = none →
      Innertube.get_video_details player iso [id] =
        [{ video_id := id, title := d.title, channel_id := d.channelId,
           channel_name := d.author, view_count := some d.viewCount,
           length_seconds := d.lengthSeconds, publish_date := none,
           subscriber_count := none }]) := by
  constructor
  · intro player iso xs ys b hb
    rw [get_video_details_append]
    have hskip : Innertube.get_video_details player iso (b :: ys) =
        Innertube.get_video_details player iso ys := by
      simp [Innertube.get_video_details, processVideo_none hb]
    rw [hskip]
  · intro player iso id pr d hp hd hne hiso
    simp [Innertube.get_video_details, Innertube.processVideo, hp, hd, hne, hiso]

/-- C9 witness: with a player oracle failing on one id, the batch result
equals the concatenation of the results on the surrounding ids. -/
theorem claim_C9_witness :
    Innertube.get_video_details playerFix isoNone
        (["vidG0000001"] ++ "badid000000" :: ["vidG0000002"]) =
      Innertube.get_video_details playerFix isoNone ["vidG0000001"] ++
        Innertube.get_video_details playerFix isoNone ["vidG0000002"] :=
  claim_C9_partial_failure.1 playerFix isoNone
    ["vidG0000001"] ["vidG0000002"] "badid000000" (Or.inl (by decide))

/-- C10: the frame property of the filter.  Every record in the filter
output is an input record with only its `subscriber_count` field set (in
the unkeyed-feed variant), respectively its `view_count` and
`subscriber_count` fields set (in the keyword-search variant); every
other field is unchanged.  (In-place mutation and object identity are
modelled as value equality in the pure embedding; rejected records are
untouched — nothing is ever written to a record outside the accepting
branch.) -/
theorem claim_C10_frame :
    (∀ (fetch : String → Option Nat) (cache : Cache) (videos : List Video)
        (now : Int) (wd maxS mult : Nat) (r : Video),
      r ∈ (Innertube.filter_videos fetch cache videos now wd maxS mult).1 →
      ∃ v ∈ videos, ∃ s,
        r = {v with subscriber_count := some s} ∧
        r.video_id = v.video_id ∧ r.title = v.title ∧
        r.channel_id = v.channel_id ∧ r.channel_name = v.channel_name ∧
        r.view_count = v.view_count ∧ r.length_seconds = v.length_seconds ∧
        r.publish_date = v.publish_date) ∧
    (∀ (fetchItems : List String → List (String × Option Nat)) (cache : Cache)
        (st : String → Option Nat) (videos : List Video) (minV maxS : Nat)
        (r : Video),
      r ∈ (Youtube.filter_videos fetchItems cache st videos minV maxS).1 →
      ∃ v ∈ videos, ∃ s vc,
        r = {v with view_count := some vc, subscriber_count := some s} ∧
        r.video_id = v.video_id ∧ r.title = v.title ∧
        r.channel_id = v.channel_id ∧ r.channel_name = v.channel_name ∧
        r.length_seconds = v.length_seconds ∧
        r.publish_date = v.publish_date) := by
  constructor
  · intro fetch cache videos now wd maxS mult r hr
    rcases mem_filter_videos_fst hr with ⟨v, hv, s, t, hpd, hcut, hmax, hview, hr'⟩
    exact ⟨v, hv, s, hr', by rw [hr'], by rw [hr'], by rw [hr'], by rw [hr'],
      by rw [hr'], by rw [hr'], by rw [hr']⟩
  · intro fetchItems cache st videos minV maxS r hr
    rcases mem_yt_filter_videos_fst hr with ⟨v, hv, s, hmax, hmin, hr'⟩
    exact ⟨v, hv, s, (st v.video_id).getD 0, hr', by rw [hr'], by rw [hr'],
      by rw [hr'], by rw [hr'], by rw [hr'], by rw [hr']⟩

/-- C10 witness: the record exported by a concrete unkeyed-feed run is
its input record with only `subscriber_count` set. -/
theorem claim_C10_witness :
    ∃ v ∈ [itVideoB], ∃ s,
      ({itVideoB with subscriber_count := some 100} : Video) =
        {v with subscriber_count := some s} ∧
      ({itVideoB with subscriber_count := some 100} : Video).video_id =
        v.video_id ∧
      ({itVideoB with subscriber_count := some 100} : Video).title = v.title ∧
      ({itVideoB with subscriber_count := some 100} : Video).channel_id =
        v.channel_id ∧
      ({itVideoB with subscriber_count := some 100} : Video).channel_name =
        v.channel_name ∧
      ({itVideoB with subscriber_count := some 100} : Video).view_count =
        v.view_count ∧
      ({itVideoB with subscriber_count := some 100} : Video).length_seconds =
        v.length_seconds ∧
      ({itVideoB with subscriber_count := some 100} : Video).publish_date =
        v.publish_date :=
  claim_C10_frame.1 itFetch100 emptyCache [itVideoB] 5 0 10000 3
    {itVideoB with subscriber_count := some 100} (by decide)

end Claims

end YTS
